import Mathlib

/-!
Verification of the ProyectoFruta real-time fruit-detection system.

The development shallowly embeds the parts of the repository relevant to the
statistics store, the camera lifecycle (camera_service.py excerpts documented
in CAMARA_REAL_INTEGRADA.md and DOCUMENTACION/), the live-mode smoothing
guard, the fusion rule, the stream renderer's overlay colouring
(_create_display_frame) and the React frontend (App.tsx, StatsPanel.tsx,
services/api.ts), and proves the specified properties about them.
-/

namespace ProyectoFruta

/-! ## Statistics store

Data shapes follow `StatsResponse` in
InterfazMonitoreoManzanas/src/services/api.ts: `summary` with
total_detections, total_fruits, total_non_fruits, fruits_by_type (map),
fruits_by_status {OK, MALOGRADA}, success_rate, plus detection_history.
-/

/-- One detection result, following the `DetectionResult` interface of
services/api.ts (timestamp, classification, confidence, is_fruit,
fruit_type, spoiled). Fields irrelevant to the counters are omitted. -/
structure DetectionRecord where
  timestamp : String
  classification : String
  confidence : ℚ
  is_fruit : Bool
  fruit_type : String
  spoiled : Bool
deriving Repr, DecidableEq

/-- `fruits_by_status` of StatsResponse.summary. -/
structure FruitsByStatus where
  ok : Nat
  malograda : Nat
deriving Repr, DecidableEq

/-- `summary` of StatsResponse (services/api.ts lines 25-36).
`fruits_by_type` is kept as an association list from fruit type to count. -/
structure StatsSummary where
  total_detections : Nat
  total_fruits : Nat
  total_non_fruits : Nat
  fruits_by_type : List (String × Nat)
  fruits_by_status : FruitsByStatus
  success_rate : ℚ
deriving Repr, DecidableEq

/-- Full persisted statistics state: summary plus detection history
(newest first), as serialized in detection_stats.json. -/
structure StatsState where
  summary : StatsSummary
  history : List DetectionRecord
deriving Repr, DecidableEq

/-- The all-zero summary, exactly the post-reset contents listed in the
reset documentation (total detecciones 0, total frutas 0, no-frutas 0,
frutas por tipo {}, frutas por estado {OK:0, MALOGRADA:0}, tasa 0.0). -/
def zeroSummary : StatsSummary :=
  { total_detections := 0
    total_fruits := 0
    total_non_fruits := 0
    fruits_by_type := []
    fruits_by_status := { ok := 0, malograda := 0 }
    success_rate := 0 }

/-- Initial statistics state: zero summary and empty history. -/
def initialStats : StatsState := { summary := zeroSummary, history := [] }

/-- Increment the count stored under key `k` in an association list,
inserting the key with count 1 when absent. -/
def bumpType : List (String × Nat) → String → List (String × Nat)
  | [], k => [(k, 1)]
  | (k₀, n) :: rest, k =>
      if k₀ = k then (k₀, n + 1) :: rest else (k₀, n) :: bumpType rest k

/-- Total of all per-type counts in an association list. -/
def sumCounts (l : List (String × Nat)) : Nat := (l.map Prod.snd).sum

/-- Capacity of the persisted detection history. -/
def HISTORY_CAP : Nat := 50

/-- Modelled from the spec: DetectionService._update_stats, whose Python body
is not included in the repository snapshot (only its call sites and the
documented effect list are). Per spec section 4.6 and the documented
accumulation behaviour: total_detections is incremented; when the record is a
fruit, total_fruits, the fruit_type bucket and the OK/MALOGRADA status bucket
are incremented; otherwise total_non_fruits is incremented; success_rate is
recomputed as OK / total_fruits (0 when no fruits); the record is appended to
the capped history (oldest evicted first). -/
def update_stats (st : StatsState) (r : DetectionRecord) : StatsState :=
  let s := st.summary
  let s :=
    if r.is_fruit then
      { s with
        total_detections := s.total_detections + 1
        total_fruits := s.total_fruits + 1
        fruits_by_type := bumpType s.fruits_by_type r.fruit_type
        fruits_by_status :=
          if r.spoiled then
            { s.fruits_by_status with malograda := s.fruits_by_status.malograda + 1 }
          else
            { s.fruits_by_status with ok := s.fruits_by_status.ok + 1 } }
    else
      { s with
        total_detections := s.total_detections + 1
        total_non_fruits := s.total_non_fruits + 1 }
  let s :=
    { s with
      success_rate :=
        if s.total_fruits = 0 then 0
        else (s.fruits_by_status.ok : ℚ) / (s.total_fruits : ℚ) }
  { summary := s, history := (r :: st.history).take HISTORY_CAP }

/-- Modelled from the spec: the DELETE /stats handler (reset_stats), whose
Python body is not included in the repository snapshot. Per the reset
documentation it rewrites detection_stats.json to the zeroed state: all
counters 0, empty type map, OK = 0, MALOGRADA = 0, success_rate 0.0 and
empty history. -/
def reset_stats (_st : StatsState) : StatsState := initialStats

/-- GET /stats returns the current persisted state (summary + history). -/
def get_stats (st : StatsState) : StatsState := st

/-- A statistics mutation: recording one detection, or a reset. -/
inductive StatsOp
  | record (r : DetectionRecord)
  | reset
deriving Repr, DecidableEq

/-- Apply one mutation to the store. -/
def applyOp (st : StatsState) : StatsOp → StatsState
  | .record r => update_stats st r
  | .reset => reset_stats st

/-- Run a sequence of mutations from the initial (zeroed) store. -/
def runOps (ops : List StatsOp) : StatsState := ops.foldl applyOp initialStats

/-- The StatsSummary invariant of spec section 3:
total_objects (total_fruits) equals the sum of the by-type counts, equals
OK + MALOGRADA, and total_detections = total_fruits + total_non_fruits. -/
def statsInvariant (s : StatsSummary) : Prop :=
  s.total_fruits = sumCounts s.fruits_by_type ∧
  s.total_fruits = s.fruits_by_status.ok + s.fruits_by_status.malograda ∧
  s.total_detections = s.total_fruits + s.total_non_fruits

theorem sumCounts_bumpType (l : List (String × Nat)) (k : String) :
    sumCounts (bumpType l k) = sumCounts l + 1 := by
  induction l with
  | nil => simp [bumpType, sumCounts]
  | cons hd tl ih =>
      obtain ⟨k₀, n⟩ := hd
      by_cases h : k₀ = k
      · simp [bumpType, h, sumCounts]
        ring
      · simp [bumpType, h, sumCounts] at ih ⊢
        omega

theorem statsInvariant_update (st : StatsState) (r : DetectionRecord)
    (h : statsInvariant st.summary) :
    statsInvariant (update_stats st r).summary := by
  obtain ⟨h1, h2, h3⟩ := h
  cases hf : r.is_fruit <;> cases hs : r.spoiled <;>
    simp [update_stats, statsInvariant, hf, hs, sumCounts_bumpType] <;> omega

theorem statsInvariant_initial : statsInvariant initialStats.summary := by
  simp [initialStats, zeroSummary, statsInvariant, sumCounts]

theorem statsInvariant_applyOp (st : StatsState) (op : StatsOp)
    (h : statsInvariant st.summary) : statsInvariant (applyOp st op).summary := by
  cases op with
  | record r => exact statsInvariant_update st r h
  | reset => exact statsInvariant_initial

theorem statsInvariant_foldl (ops : List StatsOp) (st : StatsState)
    (h : statsInvariant st.summary) :
    statsInvariant (ops.foldl applyOp st).summary := by
  induction ops generalizing st with
  | nil => exact h
  | cons op rest ih => exact ih _ (statsInvariant_applyOp st op h)

/-- C1: in every StatsSummary reachable in the statistics store (any sequence
of record/reset operations from the initial state), total_fruits equals the
sum of the fruits_by_type values and equals fruits_by_status.OK +
fruits_by_status.MALOGRADA, and total_detections equals total_fruits +
total_non_fruits. -/
theorem C1_stats_invariant (ops : List StatsOp) :
    (runOps ops).summary.total_fruits = sumCounts (runOps ops).summary.fruits_by_type ∧
    (runOps ops).summary.total_fruits =
      (runOps ops).summary.fruits_by_status.ok +
        (runOps ops).summary.fruits_by_status.malograda ∧
    (runOps ops).summary.total_detections =
      (runOps ops).summary.total_fruits + (runOps ops).summary.total_non_fruits :=
  statsInvariant_foldl ops initialStats statsInvariant_initial

/-- C2: reset_stats() followed immediately by get_stats() yields all-zero
counters (total_detections 0, total_fruits 0, total_non_fruits 0, empty
fruits_by_type, OK = 0, MALOGRADA = 0, success_rate 0) and an empty
detection history, from any prior store state. -/
theorem C2_reset_then_get_zero (st : StatsState) :
    get_stats (reset_stats st) =
      { summary :=
          { total_detections := 0
            total_fruits := 0
            total_non_fruits := 0
            fruits_by_type := []
            fruits_by_status := { ok := 0, malograda := 0 }
            success_rate := 0 }
        history := [] } := rfl

/-! ## Camera lifecycle (camera_service.py)

Embedded from the Python excerpts documented in CAMARA_REAL_INTEGRADA.md:
`start_camera` (early-return when already running with an open handle,
release of a stale handle, settle delay, new cv2.VideoCapture),
`toggle_live` and `capture_frame` (both auto-start when not running), and
`stop_camera` (is_running/is_live cleared, thread joined, handle released).
The device handle is an `Option Nat`; whether a fresh cv2.VideoCapture
opens successfully is an environment parameter `avail`. The ghost field
`opens` counts device-handle openings, to state C4. -/

structure CameraService where
  is_running : Bool
  is_live : Bool
  cap : Option Nat
  /-- Ghost counter of successful device-handle openings. -/
  opens : Nat
deriving Repr, DecidableEq

/-- `start_camera` from CAMARA_REAL_INTEGRADA.md: return True at once when
already running with an open handle; otherwise release any previous handle,
wait the settle delay, open a new cv2.VideoCapture; the remainder of the
method (configure and spawn the loop thread, then return True, or return
False when the device cannot be opened) follows spec section 4.1. -/
def start_camera (avail : Bool) (s : CameraService) : Bool × CameraService :=
  if s.is_running && s.cap.isSome then
    (true, s)
  else
    let s₁ : CameraService := { s with cap := none }
    if avail then
      (true, { s₁ with cap := some s₁.opens, is_running := true, opens := s₁.opens + 1 })
    else
      (false, s₁)

/-- `stop_camera` from camera_service.py (documented flow): is_running and
is_live cleared, loop thread joined, handle released and set to None. -/
def stop_camera (s : CameraService) : CameraService :=
  { s with is_running := false, is_live := false, cap := none }

/-- `toggle_live` from CAMARA_REAL_INTEGRADA.md: when not running, first
try start_camera and return False on failure; then flip is_live and
return it. -/
def toggle_live (avail : Bool) (s : CameraService) : Bool × CameraService :=
  if !s.is_running then
    match start_camera avail s with
    | (false, s₁) => (false, s₁)
    | (true, s₁) => (!s₁.is_live, { s₁ with is_live := !s₁.is_live })
  else
    (!s.is_live, { s with is_live := !s.is_live })

/-- `capture_frame` from CAMARA_REAL_INTEGRADA.md: when not running, first
try start_camera and return None on failure; then process the latest frame
(its verdict is the parameter `verdict`), save the capture, and update the
JSON statistics through DetectionService._update_stats — unconditionally,
with no dependence on is_live or on the smoothing state. -/
def capture_frame (avail : Bool) (verdict : DetectionRecord)
    (s : CameraService) (st : StatsState) :
    Option DetectionRecord × CameraService × StatsState :=
  if !s.is_running then
    match start_camera avail s with
    | (false, s₁) => (none, s₁, st)
    | (true, s₁) => (some verdict, s₁, update_stats st verdict)
  else
    (some verdict, s, update_stats st verdict)

/-- C3: after stop_camera(), a subsequent capture() succeeds whenever the
device can be opened: capture_frame performs a single implicit start()
(exactly one new device-handle opening) instead of failing, so no process
restart is needed; toggle_live likewise auto-starts and succeeds. -/
theorem C3_capture_after_stop (s : CameraService) (st : StatsState)
    (verdict : DetectionRecord) (avail : Bool) (h : avail = true) :
    ((capture_frame avail verdict (stop_camera s) st).1 = some verdict ∧
      (capture_frame avail verdict (stop_camera s) st).2.1.opens = s.opens + 1) ∧
    (toggle_live avail (stop_camera s)).1 = true := by
  subst h
  simp [capture_frame, stop_camera, start_camera, toggle_live]

theorem C3_capture_after_stop_witness :
    ((capture_frame true ⟨"t", "manzana_buena", 1, true, "manzana", false⟩
        (stop_camera ⟨true, true, some 0, 1⟩) initialStats).1 =
      some ⟨"t", "manzana_buena", 1, true, "manzana", false⟩ ∧
      (capture_frame true ⟨"t", "manzana_buena", 1, true, "manzana", false⟩
        (stop_camera ⟨true, true, some 0, 1⟩) initialStats).2.1.opens = 1 + 1) ∧
    (toggle_live true (stop_camera ⟨true, true, some 0, 1⟩)).1 = true :=
  C3_capture_after_stop ⟨true, true, some 0, 1⟩ initialStats
    ⟨"t", "manzana_buena", 1, true, "manzana", false⟩ true rfl

/-- C4: start_camera is idempotent. From any state, when the device is
available, calling start_camera twice in a row returns success both times,
the second call opens no additional device handle, and it leaves the state
unchanged (no-op when already running with a healthy handle). -/
theorem C4_start_idempotent (s : CameraService) (avail : Bool)
    (h : avail = true) :
    (start_camera avail s).1 = true ∧
    (start_camera avail (start_camera avail s).2).1 = true ∧
    (start_camera avail (start_camera avail s).2).2 = (start_camera avail s).2 := by
  subst h
  by_cases hrun : s.is_running && s.cap.isSome
  · refine ⟨?_, ?_, ?_⟩ <;> simp [start_camera, hrun]
  · refine ⟨?_, ?_, ?_⟩ <;> simp [start_camera, hrun]

theorem C4_start_idempotent_witness :
    (start_camera true ⟨false, false, none, 0⟩).1 = true ∧
    (start_camera true (start_camera true ⟨false, false, none, 0⟩).2).1 = true ∧
    (start_camera true (start_camera true ⟨false, false, none, 0⟩).2).2 =
      (start_camera true ⟨false, false, none, 0⟩).2 :=
  C4_start_idempotent ⟨false, false, none, 0⟩ true rfl

/-- C7: every manual capture on a running camera forces a statistics write
for the captured verdict: the resulting store is update_stats st verdict
(total_detections grows by one, accumulating onto existing counters), and
the outcome is the same whatever the value of the Live flag — the
smoothing state is not consulted at all. -/
theorem C7_capture_always_counts (s : CameraService) (st : StatsState)
    (verdict : DetectionRecord) (avail : Bool) (h : s.is_running = true) :
    (capture_frame avail verdict s st).1 = some verdict ∧
    (capture_frame avail verdict s st).2.2 = update_stats st verdict ∧
    (update_stats st verdict).summary.total_detections =
      st.summary.total_detections + 1 ∧
    capture_frame avail verdict { s with is_live := true } st =
      (some verdict, { s with is_live := true }, update_stats st verdict) ∧
    capture_frame avail verdict { s with is_live := false } st =
      (some verdict, { s with is_live := false }, update_stats st verdict) := by
  refine ⟨?_, ?_, ?_, ?_, ?_⟩ <;>
    cases hf : verdict.is_fruit <;>
      simp [capture_frame, h, update_stats, hf]

theorem C7_capture_always_counts_witness :
    (capture_frame false ⟨"t", "manzana_mala", 1, true, "manzana", true⟩
        ⟨true, false, some 0, 1⟩ initialStats).1 =
      some ⟨"t", "manzana_mala", 1, true, "manzana", true⟩ ∧
    (capture_frame false ⟨"t", "manzana_mala", 1, true, "manzana", true⟩
        ⟨true, false, some 0, 1⟩ initialStats).2.2 =
      update_stats initialStats ⟨"t", "manzana_mala", 1, true, "manzana", true⟩ ∧
    (update_stats initialStats ⟨"t", "manzana_mala", 1, true, "manzana", true⟩).summary.total_detections =
      initialStats.summary.total_detections + 1 ∧
    capture_frame false ⟨"t", "manzana_mala", 1, true, "manzana", true⟩
        { (⟨true, false, some 0, 1⟩ : CameraService) with is_live := true } initialStats =
      (some ⟨"t", "manzana_mala", 1, true, "manzana", true⟩,
        { (⟨true, false, some 0, 1⟩ : CameraService) with is_live := true },
        update_stats initialStats ⟨"t", "manzana_mala", 1, true, "manzana", true⟩) ∧
    capture_frame false ⟨"t", "manzana_mala", 1, true, "manzana", true⟩
        { (⟨true, false, some 0, 1⟩ : CameraService) with is_live := false } initialStats =
      (some ⟨"t", "manzana_mala", 1, true, "manzana", true⟩,
        { (⟨true, false, some 0, 1⟩ : CameraService) with is_live := false },
        update_stats initialStats ⟨"t", "manzana_mala", 1, true, "manzana", true⟩) :=
  C7_capture_always_counts ⟨true, false, some 0, 1⟩ initialStats
    ⟨"t", "manzana_mala", 1, true, "manzana", true⟩ false rfl

/-! ## Live-mode smoothing guard (_update_stats_for_live_mode)

Embedded from the Python shown in
DOCUMENTACION/INTEGRACION_MONITOREO_CAPTURA.md: in Live mode a statistics
write is triggered only when the current classification differs from
last_live_classification and is not "no_fruta" (no object) or
"desconocido" (unknown). On a write, last_live_classification is set to
the classification just written (the documented "misma clasificación → no
actualiza" behaviour). -/

/-- One live-mode tick: given last_live_classification, the frame's
result and the store, return the new last_live_classification, the new
store, and whether a statistics write occurred. -/
def update_stats_for_live_mode (last : Option String) (result : DetectionRecord)
    (st : StatsState) : Option String × StatsState × Bool :=
  if last ≠ some result.classification ∧
      result.classification ≠ "no_fruta" ∧ result.classification ≠ "desconocido" then
    (some result.classification, update_stats st result, true)
  else
    (last, st, false)

/-- Run the live loop's statistics guard over a list of per-frame results,
counting the statistics writes it performs. -/
def run_live_frames : Option String → StatsState → List DetectionRecord →
    Option String × StatsState × Nat
  | last, st, [] => (last, st, 0)
  | last, st, r :: rest =>
      let step := update_stats_for_live_mode last r st
      let t := run_live_frames step.1 step.2.1 rest
      (t.1, t.2.1, (if step.2.2 then 1 else 0) + t.2.2)

theorem run_live_frames_same (c : String) (frames : List DetectionRecord)
    (st : StatsState) (hsame : ∀ r ∈ frames, r.classification = c) :
    run_live_frames (some c) st frames = (some c, st, 0) := by
  induction frames with
  | nil => rfl
  | cons r rest ih =>
      have hr : r.classification = c := hsame r (List.mem_cons_self r rest)
      simp only [run_live_frames, update_stats_for_live_mode, hr]
      simp only [ne_eq, not_true_eq_false, false_and, if_false]
      have := ih (fun r hmem => hsame r (List.mem_cons_of_mem _ hmem))
      simp [this]

theorem run_live_frames_excluded (frames : List DetectionRecord)
    (last : Option String) (st : StatsState)
    (hexc : ∀ r ∈ frames,
      r.classification = "no_fruta" ∨ r.classification = "desconocido") :
    run_live_frames last st frames = (last, st, 0) := by
  induction frames with
  | nil => rfl
  | cons r rest ih =>
      have hr := hexc r (List.mem_cons_self r rest)
      have hcond : ¬(last ≠ some r.classification ∧
          r.classification ≠ "no_fruta" ∧ r.classification ≠ "desconocido") := by
        rcases hr with h | h <;> simp [h]
      simp only [run_live_frames, update_stats_for_live_mode, if_neg hcond]
      have := ih (fun r hmem => hexc r (List.mem_cons_of_mem _ hmem))
      simp [this]

theorem run_live_frames_once (c : String) (frames : List DetectionRecord)
    (last : Option String) (st : StatsState)
    (hsame : ∀ r ∈ frames, r.classification = c) :
    (run_live_frames last st frames).2.2 ≤ 1 := by
  induction frames generalizing last st with
  | nil => simp [run_live_frames]
  | cons r rest ih =>
      have hr : r.classification = c := hsame r (List.mem_cons_self r rest)
      have hrest : ∀ x ∈ rest, x.classification = c :=
        fun x hmem => hsame x (List.mem_cons_of_mem _ hmem)
      by_cases hcond : last ≠ some r.classification ∧
          r.classification ≠ "no_fruta" ∧ r.classification ≠ "desconocido"
      · simp only [run_live_frames, update_stats_for_live_mode, if_pos hcond]
        rw [hr, run_live_frames_same c rest _ hrest]
        simp
      · simp only [run_live_frames, update_stats_for_live_mode, if_neg hcond]
        simpa using ih last st hrest

/-- C5: the live-mode settle guard triggers a StatsStore write only when the
settled label changes from lastSettledLabel: over any run of consecutive
frames carrying one and the same classification at most one live statistics
write occurs (from any starting guard state), and frames classified
"no_fruta" (no object) or "desconocido" (unknown) never trigger a write —
runs made of such frames leave the store and the guard state untouched. -/
theorem C5_settle_single_write (c : String) (frames : List DetectionRecord)
    (last : Option String) (st : StatsState)
    (hsame : ∀ r ∈ frames, r.classification = c) :
    (run_live_frames last st frames).2.2 ≤ 1 ∧
    (∀ (frames₂ : List DetectionRecord) (last₂ : Option String) (st₂ : StatsState),
      (∀ r ∈ frames₂,
        r.classification = "no_fruta" ∨ r.classification = "desconocido") →
      run_live_frames last₂ st₂ frames₂ = (last₂, st₂, 0)) :=
  ⟨run_live_frames_once c frames last st hsame, run_live_frames_excluded⟩

theorem C5_settle_single_write_witness :
    (run_live_frames none initialStats
      [⟨"t1", "manzana_buena", 1, true, "manzana", false⟩,
       ⟨"t2", "manzana_buena", 1, true, "manzana", false⟩,
       ⟨"t3", "manzana_buena", 1, true, "manzana", false⟩]).2.2 ≤ 1 ∧
    (∀ (frames₂ : List DetectionRecord) (last₂ : Option String) (st₂ : StatsState),
      (∀ r ∈ frames₂,
        r.classification = "no_fruta" ∨ r.classification = "desconocido") →
      run_live_frames last₂ st₂ frames₂ = (last₂, st₂, 0)) :=
  C5_settle_single_write "manzana_buena"
    [⟨"t1", "manzana_buena", 1, true, "manzana", false⟩,
     ⟨"t2", "manzana_buena", 1, true, "manzana", false⟩,
     ⟨"t3", "manzana_buena", 1, true, "manzana", false⟩]
    none initialStats (by decide)

/-! ## FusionEngine -/

/-- ClassificationVote labels (spec section 3). -/
inductive FuseLabel
  | acceptable
  | defective
  | unknown
  | no_object
deriving Repr, DecidableEq

/-- ClassificationVote sources (spec section 3). -/
inductive VoteSource
  | model
  | heuristic
  | fused
deriving Repr, DecidableEq

/-- ClassificationVote (spec section 3): label, confidence in [0,1], source. -/
structure ClassificationVote where
  label : FuseLabel
  confidence : ℚ
  source : VoteSource
deriving Repr, DecidableEq

/-- Modelled from the spec: the FusionEngine rule of spec section 4.4 (no
fusion-engine source file is present in the repository snapshot). If the ROI
candidate is invalid, short-circuit to no_object with confidence 1, source
fused. If model and heuristic agree on acceptable/defective, emit that label
with confidence max(modelConf, heuristicConf), source fused. On disagreement
the heuristic's vote wins when its confidence exceeds the trust threshold,
otherwise the model's vote wins. -/
def fuse (threshold : ℚ) (roiValid : Bool) (mv hv : ClassificationVote) :
    ClassificationVote :=
  if !roiValid then
    ⟨.no_object, 1, .fused⟩
  else if mv.label = hv.label ∧ (mv.label = .acceptable ∨ mv.label = .defective) then
    ⟨mv.label, max mv.confidence hv.confidence, .fused⟩
  else if hv.confidence > threshold then
    ⟨hv.label, hv.confidence, .heuristic⟩
  else
    ⟨mv.label, mv.confidence, .model⟩

/-- C6: when both votes agree on acceptable/defective the fused vote carries
that label with confidence max(modelConf, heuristicConf) and source fused;
on disagreement the heuristic's label wins exactly when its confidence
exceeds the trust threshold, otherwise the model's label wins; in particular
model=acceptable@0.9, heuristic=defective@0.95 fuses to defective at
threshold 0.9 and to acceptable at threshold 0.97. -/
theorem C6_fusion_rules :
    (∀ (t : ℚ) (mv hv : ClassificationVote),
      mv.label = hv.label → (mv.label = .acceptable ∨ mv.label = .defective) →
      fuse t true mv hv = ⟨mv.label, max mv.confidence hv.confidence, .fused⟩) ∧
    (∀ (t : ℚ) (mv hv : ClassificationVote), ¬mv.label = hv.label →
      (fuse t true mv hv).label =
        if hv.confidence > t then hv.label else mv.label) ∧
    (fuse (9/10) true ⟨.acceptable, 9/10, .model⟩
        ⟨.defective, 95/100, .heuristic⟩).label = .defective ∧
    (fuse (97/100) true ⟨.acceptable, 9/10, .model⟩
        ⟨.defective, 95/100, .heuristic⟩).label = .acceptable := by
  refine ⟨?_, ?_, ?_, ?_⟩
  · intro t mv hv hlab hok
    rw [fuse, if_neg (by simp), if_pos ⟨hlab, hok⟩]
  · intro t mv hv hne
    have hcond : ¬(mv.label = hv.label ∧
        (mv.label = FuseLabel.acceptable ∨ mv.label = FuseLabel.defective)) :=
      fun hc => hne hc.1
    by_cases hc : hv.confidence > t
    · rw [fuse, if_neg (by simp), if_neg hcond, if_pos hc]
      simp [hc]
    · rw [fuse, if_neg (by simp), if_neg hcond, if_neg hc]
      simp [hc]
  · rw [fuse, if_neg (by simp), if_neg (by simp), if_pos (by norm_num)]
  · rw [fuse, if_neg (by simp), if_neg (by simp), if_neg (by norm_num)]

theorem C6_fusion_rules_witness :
    fuse 1 true ⟨FuseLabel.acceptable, 1, VoteSource.model⟩
        ⟨FuseLabel.acceptable, 1/2, VoteSource.heuristic⟩ =
      ⟨FuseLabel.acceptable, max (1 : ℚ) (1/2), VoteSource.fused⟩ :=
  C6_fusion_rules.1 1 ⟨FuseLabel.acceptable, 1, VoteSource.model⟩
    ⟨FuseLabel.acceptable, 1/2, VoteSource.heuristic⟩ rfl (Or.inl rfl)

/-! ## StreamRenderer (_create_display_frame)

Embedded from the Python shown in
DOCUMENTACION/INTEGRACION_VISUAL_STREAMING.md lines 60-82: a translucent
mask overlay when the mask is non-empty, a bounding box with caption when
a bbox is present — coloured (0,255,0) when the string "buena" occurs in
final_label and (0,0,255) otherwise — and a static instructions caption. -/

/-- `pat` is an initial segment of `s` (character lists). -/
def charsStartWith : List Char → List Char → Bool
  | [], _ => true
  | _ :: _, [] => false
  | p :: ps, c :: cs => p == c && charsStartWith ps cs

/-- `pat` occurs as a contiguous segment of `s` (character lists). -/
def charsContain (pat : List Char) : List Char → Bool
  | [] => charsStartWith pat []
  | c :: cs => charsStartWith pat (c :: cs) || charsContain pat cs

/-- Python's `pat in s` substring test on strings. -/
def strContains (s pat : String) : Bool := charsContain pat.data s.data

/-- Bounding box (x, y, w, h). -/
structure BBox where
  x : Nat
  y : Nat
  w : Nat
  h : Nat
deriving Repr, DecidableEq

/-- Annotation colours as BGR triples, as written in the source and its
colour table: verde (0,255,0), rojo (0,0,255), amarillo (255,255,0). -/
def GREEN : Nat × Nat × Nat := (0, 255, 0)

def RED : Nat × Nat × Nat := (0, 0, 255)

def YELLOW : Nat × Nat × Nat := (255, 255, 0)

/-- The colour chosen by _create_display_frame for the bounding box:
`(0, 255, 0) if "buena" in final_label else (0, 0, 255)`. -/
def boxColor (final_label : String) : Nat × Nat × Nat :=
  if strContains final_label "buena" then GREEN else RED

/-- The rendered overlay: mask overlay flag, optional coloured bounding box,
optional caption (label, confidence), and the static instructions line. -/
structure DisplayFrame where
  mask_overlay : Bool
  box : Option (BBox × (Nat × Nat × Nat))
  caption : Option (String × ℚ)
  instructions : Bool
deriving Repr, DecidableEq

/-- _create_display_frame from camera_service.py as shown in
INTEGRACION_VISUAL_STREAMING.md: mask overlay when the mask has any set
pixel; when bbox is present, a rectangle in boxColor and the caption text;
always the instructions line. -/
def create_display_frame (mask_any : Bool) (bbox : Option BBox)
    (final_label : String) (final_conf : ℚ) : DisplayFrame :=
  { mask_overlay := mask_any
    box :=
      match bbox with
      | none => none
      | some b => some (b, boxColor final_label)
    caption :=
      match bbox with
      | none => none
      | some _ => some (final_label, final_conf)
    instructions := true }

/-- C8 (code bug evidence): _create_display_frame colours the bounding box
green exactly when "buena" occurs in the label and red otherwise, so a frame
classified "desconocido" (unknown) is drawn with a RED box — not the yellow
box that the claim and the renderer's own colour table
(INTEGRACION_VISUAL_STREAMING.md lines 118-125) prescribe; the acceptable
(green), defective (red) and no_object (no box) cases do match. -/
theorem C8_unknown_box_red :
    (create_display_frame true (some ⟨100, 100, 50, 50⟩) "desconocido"
        (45/100)).box = some (⟨100, 100, 50, 50⟩, RED) ∧
    RED ≠ YELLOW ∧
    boxColor "manzana_buena" = GREEN ∧
    boxColor "manzana_mala" = RED ∧
    (create_display_frame false none "no_fruta" 1).box = none := by
  refine ⟨?_, ?_, ?_, ?_, ?_⟩ <;> decide

/-! ## Frontend: StatsPanel fallback values (StatsPanel.tsx lines 13-22) -/

/-- The locally derived success rate of StatsPanel.tsx:
`total > 0 ? Math.round((goodCount / total) * 100) : 0`. -/
def localSuccessRate (goodCount badCount : Nat) : ℤ :=
  if 0 < goodCount + badCount then
    round (((goodCount : ℚ) / ((goodCount + badCount : Nat) : ℚ)) * 100)
  else 0

/-- The headline values the StatsPanel renders. -/
structure PanelValues where
  totalDetections : Nat
  totalFruits : Nat
  totalNonFruits : Nat
  backendSuccessRate : ℤ
deriving Repr, DecidableEq

/-- StatsPanel.tsx lines 13-22. JavaScript `x || y` on numbers yields `y`
when `x` is 0 or the backend summary is absent, and the conditional
`backendStats?.success_rate ? ... : successRate` likewise falls back to the
local successRate when success_rate is 0 or absent. -/
def statsPanel (goodCount badCount : Nat) (stats : Option StatsState) :
    PanelValues :=
  let total := goodCount + badCount
  let successRate := localSuccessRate goodCount badCount
  match stats with
  | none =>
      { totalDetections := total
        totalFruits := total
        totalNonFruits := 0
        backendSuccessRate := successRate }
  | some st =>
      let b := st.summary
      { totalDetections := if b.total_detections = 0 then total else b.total_detections
        totalFruits := if b.total_fruits = 0 then total else b.total_fruits
        totalNonFruits := b.total_non_fruits
        backendSuccessRate :=
          if b.success_rate = 0 then successRate else round (b.success_rate * 100) }

/-- C9: when the backend summary is present but a field is zero — e.g. right
after a stats reset — the panel shows the locally derived fallback instead of
the backend's zero, because the code uses JavaScript truthiness: zero
total_detections and zero total_fruits display goodCount + badCount, and zero
success_rate displays the locally computed rate. -/
theorem C9_panel_truthiness_fallback (goodCount badCount : Nat) (st : StatsState) :
    (st.summary.total_detections = 0 →
      (statsPanel goodCount badCount (some st)).totalDetections =
        goodCount + badCount) ∧
    (st.summary.total_fruits = 0 →
      (statsPanel goodCount badCount (some st)).totalFruits =
        goodCount + badCount) ∧
    (st.summary.success_rate = 0 →
      (statsPanel goodCount badCount (some st)).backendSuccessRate =
        localSuccessRate goodCount badCount) := by
  refine ⟨fun h0 => ?_, fun h0 => ?_, fun h0 => ?_⟩ <;> simp [statsPanel, h0]

theorem C9_panel_truthiness_fallback_witness :
    (statsPanel 3 1 (some initialStats)).totalDetections = 3 + 1 ∧
    (statsPanel 3 1 (some initialStats)).totalFruits = 3 + 1 ∧
    (statsPanel 3 1 (some initialStats)).backendSuccessRate = localSuccessRate 3 1 :=
  ⟨(C9_panel_truthiness_fallback 3 1 initialStats).1 rfl,
   (C9_panel_truthiness_fallback 3 1 initialStats).2.1 rfl,
   (C9_panel_truthiness_fallback 3 1 initialStats).2.2 rfl⟩

/-! ## Frontend: the CAPTURAR control (handleCapture) -/

/-- The relevant part of the App component's state. -/
structure AppState where
  isLive : Bool
  backendConnected : Bool
  goodCount : Nat
  badCount : Nat
  isProcessing : Bool
deriving Repr, DecidableEq

/-- The externally visible action handleCapture takes. -/
inductive CaptureAction
  | backendCapture
  | simulateLocal
  | nothing
deriving Repr, DecidableEq

/-- handleCapture of src/InterfazMonitoreoManzanas/src/App.tsx lines
157-161: `if (isLive) simulateAutoClassification();` — the simulation sets
isProcessing true; with isLive false nothing runs. -/
def handleCapture (s : AppState) : CaptureAction × AppState :=
  if s.isLive then
    (.simulateLocal, { s with isProcessing := true })
  else
    (.nothing, s)

/-- handleCapture of the streaming-integrated App.tsx
(INTEGRACION_VISUAL_STREAMING.md lines 396-412): with isLive and
backendConnected it POSTs /capture through apiService.captureAndDetect();
with only isLive it falls back to the local simulation; otherwise it does
nothing. -/
def handleCaptureStreaming (s : AppState) : CaptureAction × AppState :=
  if s.isLive && s.backendConnected then
    (.backendCapture, { s with isProcessing := true })
  else if s.isLive then
    (.simulateLocal, { s with isProcessing := true })
  else
    (.nothing, s)

/-- C10: the CAPTURAR control performs no capture when live mode is off: in
both versions of handleCapture, any state with isLive = false produces no
backend request and no simulated classification, and the state — in
particular the goodCount/badCount counters — is left unchanged. -/
theorem C10_capture_noop_when_not_live (s : AppState) (h : s.isLive = false) :
    handleCapture s = (.nothing, s) ∧
    handleCaptureStreaming s = (.nothing, s) ∧
    (handleCapture s).2.goodCount = s.goodCount ∧
    (handleCaptureStreaming s).2.badCount = s.badCount := by
  simp [handleCapture, handleCaptureStreaming, h]

theorem C10_capture_noop_when_not_live_witness :
    handleCapture ⟨false, true, 2, 3, false⟩ =
      (CaptureAction.nothing, ⟨false, true, 2, 3, false⟩) ∧
    handleCaptureStreaming ⟨false, true, 2, 3, false⟩ =
      (CaptureAction.nothing, ⟨false, true, 2, 3, false⟩) ∧
    (handleCapture ⟨false, true, 2, 3, false⟩).2.goodCount = 2 ∧
    (handleCaptureStreaming ⟨false, true, 2, 3, false⟩).2.badCount = 3 := by
  have := C10_capture_noop_when_not_live ⟨false, true, 2, 3, false⟩ rfl
  simpa using this

end ProyectoFruta
